import Mathlib

/- Verification of the financial-chatbot ingestion/chunking pipeline and
query-routing workflow.  Text is modelled as `List Char`; Python string
slicing, stripping and substring tests are embedded explicitly. -/

namespace FC

/-- Text is modelled as a list of characters. -/
abbrev Str := List Char

/-- Convert a Lean string literal to the character-list model. -/
def toL (s : String) : Str := s.data

/-- Whitespace characters removed by Python `str.strip()` (ASCII set). -/
def pyIsSpace (c : Char) : Bool :=
  c = ' ' || c = '\t' || c = '\n' || c = '\r' || c = '\x0b' || c = '\x0c'

/-- Python `s.strip()`: drop leading and trailing whitespace. -/
def pyStrip (s : Str) : Str :=
  ((s.dropWhile pyIsSpace).reverse.dropWhile pyIsSpace).reverse

/-- Python slice `s[a:b]` for `0 ≤ a ≤ b` (indices clamped to the length). -/
def pySlice (s : Str) (a b : Nat) : Str := (s.take b).drop a

/- `PDFProcessor.chunk_text` (src/ingestion/pipeline.py, lines 44-61):

    while start < len(text):
        end = start + chunk_size
        chunk = text[start:end]
        chunks.append(chunk.strip())
        start = end - overlap
        if start >= len(text):
            break

The loop is embedded with explicit fuel; one unit of fuel is one loop
iteration.  `chunk_text` runs it with fuel `len(text)`, which suffices
whenever `overlap < chunk_size` (proved below). -/

/-- The raw windows `text[start:start+chunk_size]` produced by the loop of
`PDFProcessor.chunk_text`, with explicit iteration fuel. -/
def chunkWindows (text : Str) (chunk_size overlap : Nat) : Nat → Nat → List Str
  | 0, _ => []
  | fuel + 1, start =>
    if start < text.length then
      pySlice text start (start + chunk_size) ::
        chunkWindows text chunk_size overlap fuel (start + chunk_size - overlap)
    else []

/-- `PDFProcessor.chunk_text`: each emitted chunk is the stripped window. -/
def chunk_text (text : Str) (chunk_size overlap : Nat) : List Str :=
  (chunkWindows text chunk_size overlap text.length 0).map pyStrip

/-- Once `start` has passed the end of the text the loop emits nothing,
regardless of the remaining fuel. -/
theorem chunkWindows_of_le (text : Str) (cs ov : Nat) (fuel start : Nat)
    (h : text.length ≤ start) : chunkWindows text cs ov fuel start = [] := by
  cases fuel with
  | zero => rfl
  | succ f => simp [chunkWindows, Nat.not_lt.mpr h]

/-- The loop result is independent of the fuel as soon as the fuel covers the
remaining text: with `overlap < chunk_size` each iteration strictly advances
`start`. -/
theorem chunkWindows_fuel_irrel (text : Str) (cs ov : Nat) (h : ov < cs) :
    ∀ fuel₁ fuel₂ start, text.length - start ≤ fuel₁ →
      text.length - start ≤ fuel₂ →
      chunkWindows text cs ov fuel₁ start = chunkWindows text cs ov fuel₂ start := by
  intro fuel₁
  induction fuel₁ with
  | zero =>
    intro fuel₂ start h₁ _
    rw [chunkWindows_of_le text cs ov 0 start (by omega),
      chunkWindows_of_le text cs ov fuel₂ start (by omega)]
  | succ f ih =>
    intro fuel₂ start h₁ h₂
    by_cases hlt : start < text.length
    · have hf₂ : ∃ f₂, fuel₂ = f₂ + 1 := ⟨fuel₂ - 1, by omega⟩
      obtain ⟨f₂, rfl⟩ := hf₂
      simp only [chunkWindows, if_pos hlt]
      rw [ih f₂ (start + cs - ov) (by omega) (by omega)]
    · rw [chunkWindows_of_le text cs ov (f + 1) start (by omega),
        chunkWindows_of_le text cs ov fuel₂ start (by omega)]

/-- C9: for every text and parameters with `0 ≤ overlap < chunk_size`, the
fixed-window chunking loop terminates: every iteration strictly advances the
start offset, so `len(text)` iterations of fuel already reach the loop's
final value — any further fuel yields the identical chunk list produced by
`chunk_text`. -/
theorem chunk_text_terminates (text : Str) (cs ov : Nat) (h : ov < cs)
    (fuel : Nat) (hf : text.length ≤ fuel) :
    chunkWindows text cs ov fuel 0 = chunkWindows text cs ov text.length 0 :=
  chunkWindows_fuel_irrel text cs ov h fuel text.length 0 (by omega) (by omega)

/-- Witness for C9 at a concrete input. -/
theorem chunk_text_terminates_witness :
    chunkWindows (toL "abcd") 2 1 100 0 =
      chunkWindows (toL "abcd") 2 1 (toL "abcd").length 0 :=
  chunk_text_terminates (toL "abcd") 2 1 (by decide) 100 (by decide)

/-- Ceiling-division step: `⌈n/s⌉ = ⌈(n-s)/s⌉ + 1` for `1 ≤ n`, `1 ≤ s`. -/
theorem ceil_div_step (s n : Nat) (hs : 0 < s) (hn : 0 < n) :
    (n + s - 1) / s = (n - s + s - 1) / s + 1 := by
  rcases le_or_lt n s with hle | hgt
  · have h1 : n - s = 0 := by omega
    have h2 : (0 + s - 1) / s = 0 := Nat.div_eq_of_lt (by omega)
    have h3 : n + s - 1 = (n - 1) + s := by omega
    have h4 : (n - 1) / s = 0 := Nat.div_eq_of_lt (by omega)
    rw [h1, h2, h3, Nat.add_div_right _ hs, h4]
  · have h3 : n + s - 1 = (n - s + s - 1) + s := by omega
    rw [h3, Nat.add_div_right _ hs]

/-- The number of windows emitted from offset `start` is exactly
`⌈(len - start) / (chunk_size - overlap)⌉`. -/
theorem chunkWindows_length (text : Str) (cs ov : Nat) (h : ov < cs) :
    ∀ fuel start, text.length - start ≤ fuel →
      (chunkWindows text cs ov fuel start).length
        = (text.length - start + (cs - ov) - 1) / (cs - ov) := by
  intro fuel
  induction fuel with
  | zero =>
    intro start hs
    have h0 : text.length - start = 0 := by omega
    rw [chunkWindows_of_le text cs ov 0 start (by omega), h0]
    simp [Nat.div_eq_of_lt (show cs - ov - 1 < cs - ov by omega)]
  | succ f ih =>
    intro start hs
    by_cases hlt : start < text.length
    · simp only [chunkWindows, if_pos hlt, List.length_cons]
      rw [ih (start + cs - ov) (by omega)]
      have he : start + cs - ov = start + (cs - ov) := by omega
      have hsub : text.length - (start + (cs - ov))
          = (text.length - start) - (cs - ov) := by omega
      rw [he, hsub,
        ceil_div_step (cs - ov) (text.length - start) (by omega) (by omega)]
    · have h0 : text.length - start = 0 := by omega
      rw [chunkWindows_of_le text cs ov (f + 1) start (by omega), h0]
      simp [Nat.div_eq_of_lt (show cs - ov - 1 < cs - ov by omega)]

/-- C2: for `0 ≤ overlap < chunk_size` the chunk count equals
`⌈len(text) / (chunk_size - overlap)⌉` exactly (hence certainly within ±1),
and the empty text yields zero chunks without error. -/
theorem chunk_text_count (text : Str) (cs ov : Nat) (h : ov < cs) :
    (chunk_text text cs ov).length
        = (text.length + (cs - ov) - 1) / (cs - ov)
      ∧ (text = [] → chunk_text text cs ov = []) := by
  constructor
  · unfold chunk_text
    rw [List.length_map, chunkWindows_length text cs ov h text.length 0 (by omega)]
    simp
  · intro ht
    subst ht
    rfl

/-- Witness for C2 at a concrete input: "abcde" with window 3, overlap 1
gives ⌈5/2⌉ = 3 chunks. -/
theorem chunk_text_count_witness :
    (chunk_text ['a', 'b', 'c', 'd', 'e'] 3 1).length
        = (['a', 'b', 'c', 'd', 'e'].length + (3 - 1) - 1) / (3 - 1)
      ∧ (['a', 'b', 'c', 'd', 'e'] = ([] : Str)
          → chunk_text ['a', 'b', 'c', 'd', 'e'] 3 1 = []) :=
  chunk_text_count ['a', 'b', 'c', 'd', 'e'] 3 1 (by decide)

/-- Modelled from the claim's wording (C3): concatenate the chunks with the
overlapping regions removed, i.e. drop the first `overlap` characters of
every chunk after the first and concatenate. -/
def dropOverlapConcat (overlap : Nat) : List Str → Str
  | [] => []
  | c :: rest => c ++ (rest.map (List.drop overlap)).flatten

/-- C3 counterexample: `chunk_text` strips every chunk, so an internal space
at a window boundary is lost.  For text `"ab cd"` with `chunk_size = 3`,
`overlap = 0` the emitted chunks are `["ab", "cd"]`; their concatenation
(nothing to remove at overlap 0) has length 4, while the text trimmed of
edge whitespace has length 5. -/
theorem chunk_reconstruct_counterexample :
    (dropOverlapConcat 0 (chunk_text ['a', 'b', ' ', 'c', 'd'] 3 0)).length
      ≠ (pyStrip ['a', 'b', ' ', 'c', 'd']).length := by decide

/-- Concatenating the raw windows from offset `start` with their first
`overlap` characters removed reproduces `text` from position `start + overlap`. -/
theorem chunkWindows_flatten (text : Str) (cs ov : Nat) (h : ov < cs) :
    ∀ fuel start, text.length - start ≤ fuel →
      ((chunkWindows text cs ov fuel start).map (List.drop ov)).flatten
        = text.drop (start + ov) := by
  intro fuel
  induction fuel with
  | zero =>
    intro start hs
    rw [chunkWindows_of_le text cs ov 0 start (by omega)]
    exact (List.drop_eq_nil_of_le (by omega)).symm
  | succ f ih =>
    intro start hs
    by_cases hlt : start < text.length
    · simp only [chunkWindows, if_pos hlt, List.map_cons, List.flatten_cons]
      rw [ih (start + cs - ov) (by omega)]
      unfold pySlice
      rw [List.drop_drop, List.drop_take]
      have e1 : start + cs - (start + ov) = cs - ov := by omega
      have e2 : start + cs - ov + ov = start + cs := by omega
      have e3 : start + cs = (start + ov) + (cs - ov) := by omega
      rw [e1, e2, e3, ← List.drop_drop (cs - ov) (start + ov) text,
        List.take_append_drop]
    · rw [chunkWindows_of_le text cs ov (f + 1) start (by omega)]
      exact (List.drop_eq_nil_of_le (by omega)).symm

/-- C3 amended: for `0 ≤ overlap < chunk_size`, concatenating the raw
fixed-size windows (before the per-chunk `strip()` that `chunk_text`
applies), with the first `overlap` characters of every window after the
first removed, reconstructs the original text exactly — in particular the
reconstruction has length `len(text)`.  The per-chunk stripping in the code
makes the claimed equality with the edge-trimmed text length fail
(see the counterexample). -/
theorem chunkWindows_reconstruct (text : Str) (cs ov : Nat) (h : ov < cs) :
    dropOverlapConcat ov (chunkWindows text cs ov text.length 0) = text := by
  cases text with
  | nil => rfl
  | cons a t =>
    have hlt : 0 < (a :: t).length := by simp
    show dropOverlapConcat ov
        (chunkWindows (a :: t) cs ov (t.length + 1) 0) = a :: t
    simp only [chunkWindows, if_pos hlt]
    show pySlice (a :: t) 0 (0 + cs) ++
        ((chunkWindows (a :: t) cs ov t.length (0 + cs - ov)).map
          (List.drop ov)).flatten = a :: t
    rw [chunkWindows_flatten (a :: t) cs ov h t.length (0 + cs - ov) (by
      have : 1 ≤ cs - ov := by omega
      simp only [List.length_cons]
      omega)]
    unfold pySlice
    have e1 : 0 + cs - ov + ov = cs := by omega
    have e0 : 0 + cs = cs := by omega
    rw [e1, e0, List.drop_zero, List.take_append_drop]

/-- Witness for the amended C3 at a concrete input with nonzero overlap. -/
theorem chunkWindows_reconstruct_witness :
    dropOverlapConcat 1
        (chunkWindows ['a', 'b', ' ', 'c', 'd'] 3 1
          ['a', 'b', ' ', 'c', 'd'].length 0)
      = ['a', 'b', ' ', 'c', 'd'] :=
  chunkWindows_reconstruct ['a', 'b', ' ', 'c', 'd'] 3 1 (by decide)

/- `CSVProcessor.analyze_data` (src/ingestion/pipeline.py lines 92-113 and
src/backend/app/ingestion/pipeline.py lines 94-115):

    'numeric_columns': df.select_dtypes(include=['number']).columns.tolist(),
    'categorical_columns': df.select_dtypes(include=['object']).columns.tolist(),
    'date_columns': []
    for col in df.columns:
        if df[col].dtype == 'object':
            try:
                pd.to_datetime(df[col].dropna().iloc[0])
                analysis['date_columns'].append(col)
            except: pass

A loaded table is modelled by its columns, each with a pandas storage dtype
(numeric, object, or some other dtype such as bool/datetime64) and its cell
values (`none` = missing).  `pd.to_datetime` on a single value is an external
best-effort parser, taken as a Boolean oracle parameter. -/

/-- Pandas storage dtype of a column, as far as `analyze_data` inspects it. -/
inductive Dtype
  | tNumeric
  | tObject
  | tOther
deriving DecidableEq

/-- One column of a loaded table. -/
structure Column where
  name : String
  dtype : Dtype
  values : List (Option String)
deriving DecidableEq

/-- A loaded table. -/
structure DataFrame where
  cols : List Column
deriving DecidableEq

/-- Column-name list of the table (`df.columns.tolist()`). -/
def columnsOf (df : DataFrame) : List String := df.cols.map Column.name

/-- `df.select_dtypes(include=['number']).columns.tolist()`. -/
def numeric_columns (df : DataFrame) : List String :=
  (df.cols.filter (fun c => c.dtype == Dtype.tNumeric)).map Column.name

/-- `df.select_dtypes(include=['object']).columns.tolist()`. -/
def categorical_columns (df : DataFrame) : List String :=
  (df.cols.filter (fun c => c.dtype == Dtype.tObject)).map Column.name

/-- `df[col].dropna().iloc[0]`: first non-missing value; `none` models the
`IndexError` of an all-missing column (caught by the bare `except`). -/
def first_non_missing (vs : List (Option String)) : Option String :=
  (vs.filterMap id).head?

/-- The date-column detection loop of `analyze_data`: an object column whose
first non-missing value is accepted by the date parser. -/
def date_columns (parses_as_date : String → Bool) (df : DataFrame) : List String :=
  (df.cols.filter (fun c =>
    c.dtype == Dtype.tObject &&
      (match first_non_missing c.values with
       | some v => parses_as_date v
       | none => false))).map Column.name

/-- A one-column table whose object column holds a date-formatted value. -/
def dfDateCat : DataFrame :=
  ⟨[⟨"d", Dtype.tObject, [some "2024-01-01"]⟩]⟩

/-- A one-column table whose column has a storage dtype that is neither
numeric nor object (e.g. a pandas `bool` or `datetime64` column). -/
def dfOtherCol : DataFrame :=
  ⟨[⟨"f", Dtype.tOther, [some "True"]⟩]⟩

/-- C4 counterexample, refuting both halves of the claimed partition
property.  (1) Disjointness fails: for a table with one object column
holding date-formatted text (accepted by the parser, as `pd.to_datetime`
accepts "2024-01-01"), the column appears in both `categorical_columns`
and `date_columns`.  (2) The union also need not be the full column set:
for a table whose only column has a dtype that is neither numeric nor
object (e.g. bool), the column is in none of the three sets. -/
theorem analyze_data_partition_counterexample :
    (¬ ((∀ x, ¬(x ∈ numeric_columns dfDateCat ∧ x ∈ categorical_columns dfDateCat)) ∧
       (∀ x, ¬(x ∈ numeric_columns dfDateCat ∧
          x ∈ date_columns (fun _ => true) dfDateCat)) ∧
       (∀ x, ¬(x ∈ categorical_columns dfDateCat ∧
          x ∈ date_columns (fun _ => true) dfDateCat)) ∧
       (∀ x, (x ∈ numeric_columns dfDateCat ∨ x ∈ categorical_columns dfDateCat ∨
          x ∈ date_columns (fun _ => true) dfDateCat) ↔ x ∈ columnsOf dfDateCat))) ∧
    (¬ ((∀ x, ¬(x ∈ numeric_columns dfOtherCol ∧ x ∈ categorical_columns dfOtherCol)) ∧
       (∀ x, ¬(x ∈ numeric_columns dfOtherCol ∧
          x ∈ date_columns (fun _ => true) dfOtherCol)) ∧
       (∀ x, ¬(x ∈ categorical_columns dfOtherCol ∧
          x ∈ date_columns (fun _ => true) dfOtherCol)) ∧
       (∀ x, (x ∈ numeric_columns dfOtherCol ∨ x ∈ categorical_columns dfOtherCol ∨
          x ∈ date_columns (fun _ => true) dfOtherCol) ↔ x ∈ columnsOf dfOtherCol))) := by
  constructor
  · rintro ⟨-, -, h3, -⟩
    exact h3 "d" ⟨by decide, by decide⟩
  · rintro ⟨-, -, -, h4⟩
    rcases (h4 "f").mpr (by decide) with h | h | h <;> revert h <;> decide

/-- C4 amended: for a table with no duplicate column names, the numeric and
categorical sets are disjoint, every date column is also a categorical
(object-dtype) column, and the union of the numeric, categorical and date
sets equals the full column set if and only if every column's storage dtype
is numeric or object. -/
theorem analyze_data_column_sets (parses_as_date : String → Bool)
    (df : DataFrame) (hnd : (columnsOf df).Nodup) :
    (∀ x, ¬(x ∈ numeric_columns df ∧ x ∈ categorical_columns df)) ∧
    (∀ x, x ∈ date_columns parses_as_date df → x ∈ categorical_columns df) ∧
    ((∀ c ∈ df.cols, c.dtype ≠ Dtype.tOther) ↔
      ∀ x, (x ∈ numeric_columns df ∨ x ∈ categorical_columns df ∨
          x ∈ date_columns parses_as_date df)
        ↔ x ∈ columnsOf df) := by
  refine ⟨?_, ?_, ?_, ?_⟩
  · rintro x ⟨hx1, hx2⟩
    simp only [numeric_columns, categorical_columns, List.mem_map,
      List.mem_filter, beq_iff_eq] at hx1 hx2
    obtain ⟨c1, ⟨hc1m, hc1d⟩, hc1n⟩ := hx1
    obtain ⟨c2, ⟨hc2m, hc2d⟩, hc2n⟩ := hx2
    have : c1 = c2 :=
      List.inj_on_of_nodup_map hnd hc1m hc2m (hc1n.trans hc2n.symm)
    rw [this, hc2d] at hc1d
    exact absurd hc1d (by decide)
  · intro x hx
    simp only [date_columns, categorical_columns, List.mem_map,
      List.mem_filter, Bool.and_eq_true, beq_iff_eq] at hx ⊢
    obtain ⟨c, ⟨hcm, hcd, _⟩, hcn⟩ := hx
    exact ⟨c, ⟨hcm, hcd⟩, hcn⟩
  · intro hno x
    simp only [numeric_columns, categorical_columns, date_columns, columnsOf,
      List.mem_map, List.mem_filter, Bool.and_eq_true, beq_iff_eq]
    constructor
    · rintro (⟨c, ⟨hcm, _⟩, hcn⟩ | ⟨c, ⟨hcm, _⟩, hcn⟩ | ⟨c, ⟨hcm, _, _⟩, hcn⟩) <;>
        exact ⟨c, hcm, hcn⟩
    · rintro ⟨c, hcm, hcn⟩
      cases hd : c.dtype with
      | tNumeric => exact Or.inl ⟨c, ⟨hcm, hd⟩, hcn⟩
      | tObject => exact Or.inr (Or.inl ⟨c, ⟨hcm, hd⟩, hcn⟩)
      | tOther => exact absurd hd (hno c hcm)
  · intro hun c hcm hd
    have hx : c.name ∈ columnsOf df := by
      simp only [columnsOf, List.mem_map]
      exact ⟨c, hcm, rfl⟩
    rcases (hun c.name).mpr hx with h | h | h
    · simp only [numeric_columns, List.mem_map, List.mem_filter,
        beq_iff_eq] at h
      obtain ⟨c2, ⟨hc2m, hc2d⟩, hc2n⟩ := h
      rw [List.inj_on_of_nodup_map hnd hc2m hcm hc2n, hd] at hc2d
      exact absurd hc2d (by decide)
    · simp only [categorical_columns, List.mem_map, List.mem_filter,
        beq_iff_eq] at h
      obtain ⟨c2, ⟨hc2m, hc2d⟩, hc2n⟩ := h
      rw [List.inj_on_of_nodup_map hnd hc2m hcm hc2n, hd] at hc2d
      exact absurd hc2d (by decide)
    · simp only [date_columns, List.mem_map, List.mem_filter,
        Bool.and_eq_true, beq_iff_eq] at h
      obtain ⟨c2, ⟨hc2m, hc2d, -⟩, hc2n⟩ := h
      rw [List.inj_on_of_nodup_map hnd hc2m hcm hc2n, hd] at hc2d
      exact absurd hc2d (by decide)

/-- Witness for the amended C4 at a concrete two-column table. -/
theorem analyze_data_column_sets_witness :
    (∀ x, ¬(x ∈ numeric_columns ⟨[⟨"a", Dtype.tNumeric, []⟩, ⟨"b", Dtype.tObject, [some "x"]⟩]⟩ ∧
        x ∈ categorical_columns ⟨[⟨"a", Dtype.tNumeric, []⟩, ⟨"b", Dtype.tObject, [some "x"]⟩]⟩)) ∧
    (∀ x, x ∈ date_columns (fun _ => false) ⟨[⟨"a", Dtype.tNumeric, []⟩, ⟨"b", Dtype.tObject, [some "x"]⟩]⟩ →
        x ∈ categorical_columns ⟨[⟨"a", Dtype.tNumeric, []⟩, ⟨"b", Dtype.tObject, [some "x"]⟩]⟩) ∧
    ((∀ c ∈ (⟨[⟨"a", Dtype.tNumeric, []⟩, ⟨"b", Dtype.tObject, [some "x"]⟩]⟩ : DataFrame).cols,
        c.dtype ≠ Dtype.tOther) ↔
      ∀ x, (x ∈ numeric_columns ⟨[⟨"a", Dtype.tNumeric, []⟩, ⟨"b", Dtype.tObject, [some "x"]⟩]⟩ ∨
          x ∈ categorical_columns ⟨[⟨"a", Dtype.tNumeric, []⟩, ⟨"b", Dtype.tObject, [some "x"]⟩]⟩ ∨
          x ∈ date_columns (fun _ => false) ⟨[⟨"a", Dtype.tNumeric, []⟩, ⟨"b", Dtype.tObject, [some "x"]⟩]⟩)
        ↔ x ∈ columnsOf ⟨[⟨"a", Dtype.tNumeric, []⟩, ⟨"b", Dtype.tObject, [some "x"]⟩]⟩) :=
  analyze_data_column_sets (fun _ => false)
    ⟨[⟨"a", Dtype.tNumeric, []⟩, ⟨"b", Dtype.tObject, [some "x"]⟩]⟩ (by decide)

/- `CSVProcessor._create_statistical_chunks`
(src/backend/app/ingestion/pipeline.py lines 198-215):

    if analysis['numeric_columns']:
        numeric_df = df[analysis['numeric_columns']]
        if len(numeric_df.columns) > 1:
            corr_matrix = numeric_df.corr()
            chunks.append(f"Correlation Matrix:\n{corr_matrix.to_string()}")
        summary_stats = df[analysis['numeric_columns']].describe()
        chunks.append(f"Summary Statistics:\n{summary_stats.to_string()}")

The pandas renderings `corr().to_string()` and `describe().to_string()` are
external computations, taken as parameters. -/

/-- `CSVProcessor._create_statistical_chunks`. -/
def create_statistical_chunks (corr_to_string describe_to_string : DataFrame → Str)
    (df : DataFrame) : List Str :=
  if (numeric_columns df).isEmpty then []
  else
    (if 1 < (numeric_columns df).length
      then [toL "Correlation Matrix:\n" ++ corr_to_string df] else [])
    ++ [toL "Summary Statistics:\n" ++ describe_to_string df]

/-- A table with exactly one numeric column. -/
def dfOneNumeric : DataFrame := ⟨[⟨"n", Dtype.tNumeric, [some "1"]⟩]⟩

/-- C7 counterexample: a table with exactly one numeric column (fewer than 2)
still produces the combined descriptive-statistics chunk, so the claimed
"neither statistical chunk with fewer than 2 numeric columns" fails. -/
theorem statistical_chunks_counterexample :
    (numeric_columns dfOneNumeric).length = 1 ∧
    create_statistical_chunks (fun _ => []) (fun _ => []) dfOneNumeric ≠ [] := by
  constructor
  · decide
  · decide

/-- C7 amended: the pairwise correlation-matrix chunk is emitted iff the
table has at least 2 numeric columns, while the combined
descriptive-statistics chunk is emitted iff the table has at least 1 numeric
column; with zero numeric columns nothing is produced. -/
theorem statistical_chunks_cases (corr_to_string describe_to_string : DataFrame → Str)
    (df : DataFrame) :
    (2 ≤ (numeric_columns df).length →
      create_statistical_chunks corr_to_string describe_to_string df
        = [toL "Correlation Matrix:\n" ++ corr_to_string df,
           toL "Summary Statistics:\n" ++ describe_to_string df]) ∧
    ((numeric_columns df).length = 1 →
      create_statistical_chunks corr_to_string describe_to_string df
        = [toL "Summary Statistics:\n" ++ describe_to_string df]) ∧
    ((numeric_columns df).length = 0 →
      create_statistical_chunks corr_to_string describe_to_string df = []) := by
  refine ⟨?_, ?_, ?_⟩
  · intro h2
    have hne : (numeric_columns df).isEmpty = false := by
      cases hn : numeric_columns df with
      | nil => rw [hn] at h2; simp at h2
      | cons a l => simp [hn]
    simp [create_statistical_chunks, hne, if_pos (show 1 < (numeric_columns df).length by omega)]
  · intro h1
    have hne : (numeric_columns df).isEmpty = false := by
      cases hn : numeric_columns df with
      | nil => rw [hn] at h1; simp at h1
      | cons a l => simp [hn]
    simp [create_statistical_chunks, hne, if_neg (show ¬ 1 < (numeric_columns df).length by omega)]
  · intro h0
    have hne : (numeric_columns df).isEmpty = true := by
      cases hn : numeric_columns df with
      | nil => simp [hn]
      | cons a l => rw [hn] at h0; simp at h0
    simp [create_statistical_chunks, hne]

/-- Witness for the amended C7 at concrete one- and two-numeric-column
tables. -/
theorem statistical_chunks_cases_witness :
    create_statistical_chunks (fun _ => toL "c") (fun _ => toL "s")
        ⟨[⟨"n", Dtype.tNumeric, []⟩, ⟨"m", Dtype.tNumeric, []⟩]⟩
      = [toL "Correlation Matrix:\n" ++ toL "c",
         toL "Summary Statistics:\n" ++ toL "s"] :=
  (statistical_chunks_cases (fun _ => toL "c") (fun _ => toL "s")
      ⟨[⟨"n", Dtype.tNumeric, []⟩, ⟨"m", Dtype.tNumeric, []⟩]⟩).1 (by decide)

/- The query-routing workflow (src/workflow/financial_workflow.py).
Strings are `Str`; Python `keyword in message` is an executable substring
test; the LLM synthesis call is an oracle parameter; retrieval results are a
parameter (the vector store is an external capability). -/

/-- Does `hay` start with `needle`? -/
def listStartsWith : Str → Str → Bool
  | _, [] => true
  | [], _ :: _ => false
  | h :: hs, n :: ns => h == n && listStartsWith hs ns

/-- Python substring test `needle in hay`. -/
def strContains (hay needle : Str) : Bool :=
  match hay with
  | [] => needle.isEmpty
  | c :: t => listStartsWith (c :: t) needle || strContains t needle

/-- Python `any(keyword in message for keyword in keywords)`. -/
def containsAny (message : Str) (keywords : List Str) : Bool :=
  keywords.any (fun k => strContains message k)

/-- Python `str.lower()` on the character model. -/
def lowerStr (s : Str) : Str := s.map Char.toLower

/-- Summarization cues of `FinancialWorkflow._router_node`. -/
def summarization_keywords : List Str :=
  [toL "summarize", toL "summary", toL "executive summary", toL "key points"]

/-- Quiz cues of `FinancialWorkflow._router_node`. -/
def mcq_keywords : List Str :=
  [toL "quiz", toL "test", toL "questions", toL "mcq", toL "multiple choice"]

/-- Analytics cues of `FinancialWorkflow._is_analytics_query`. -/
def analytics_keywords : List Str :=
  [toL "kpi", toL "trends", toL "analytics", toL "insights", toL "anomalies",
   toL "analysis", toL "calculate", toL "computation", toL "statistics",
   toL "metrics", toL "performance", toL "revenue", toL "profit",
   toL "margin", toL "growth", toL "decline", toL "correlation",
   toL "pattern", toL "forecast", toL "prediction", toL "comparison",
   toL "ratio"]

/-- Metadata values stored in the workflow state's `metadata` dict. -/
inductive MVal
  | natV : Nat → MVal
  | strV : Str → MVal
  | boolV : Bool → MVal
  | listV : List Str → MVal
  | noneV : MVal
deriving DecidableEq

/-- The `metadata` dict of a retrieved chunk, as far as the workflow reads
it (`filename`, `file_type`; absent keys fall back to defaults). -/
structure ChunkMeta where
  filename : Option Str
  fileType : Option Str
deriving DecidableEq

/-- A retrieved fragment returned by `vector_store.search_similar_chunks`. -/
structure RetChunk where
  content : Str
  metadata : ChunkMeta
  distance : ℚ
deriving DecidableEq

/-- One entry of the `sources` list attached to a response. -/
structure SourceEntry where
  content : Str
  metadata : ChunkMeta
  relevance_score : ℚ
  document_type : Str
deriving DecidableEq

/-- `FinancialState` (src/workflow/state.py). -/
structure FState where
  message : Str
  document_id : Option Str
  agent_type : Option Str
  context_chunks : List RetChunk
  document_content : Option Str
  response : Str
  sources : List SourceEntry
  metadata : List (String × MVal)
  next_agent : Option Str
  error : Option Str
  completed : Bool

/-- `FinancialWorkflow._router_node`: keyword routing (summarization cues
before quiz cues, default "rag"), then an explicit non-empty
`state["agent_type"]` overrides the keyword result.  The body is pure, so
its `try/except` never fires. -/
def router_node (st : FState) : FState :=
  let message := lowerStr st.message
  let keywordAgent :=
    if containsAny message summarization_keywords then toL "summarization"
    else if containsAny message mcq_keywords then toL "mcq"
    else toL "rag"
  let agent_type :=
    match st.agent_type with
    | some a => if a.isEmpty then keywordAgent else a
    | none => keywordAgent
  { st with next_agent := some agent_type }

/-- `FinancialWorkflow._is_analytics_query`. -/
def is_analytics_query (query : Str) : Bool :=
  containsAny (lowerStr query) analytics_keywords

/-- Which prompt template `_rag_agent_node` selects. -/
inductive PromptKind
  | standard
  | analytics
deriving DecidableEq

/-- Decimal rendering of a natural number. -/
def natToStr (n : Nat) : Str := (Nat.repr n).data

/-- Python `sep.join(parts)`. -/
def joinSep (sep : Str) : List Str → Str
  | [] => []
  | [x] => x
  | x :: y :: rest => x ++ sep ++ joinSep sep (y :: rest)

/-- One `Source i (Document: filename):\ncontent` block of the RAG context. -/
def source_block (i : Nat) (c : RetChunk) : Str :=
  toL "Source " ++ natToStr (i + 1) ++ toL " (Document: "
    ++ c.metadata.filename.getD (toL "Unknown") ++ toL "):\n" ++ c.content

/-- The `context_text` assembled by `_rag_agent_node`. -/
def context_text_of (chunks : List RetChunk) : Str :=
  joinSep (toL "\n\n") (chunks.enum.map (fun p => source_block p.1 p.2))

/-- The set of document types present in the retrieved context. -/
def document_types_of (chunks : List RetChunk) : List Str :=
  (chunks.map (fun c => c.metadata.fileType.getD (toL "unknown"))).dedup

/-- The fixed no-relevant-information message of `_rag_agent_node`. -/
def no_info_response : Str :=
  toL "I couldn\x27t find relevant financial information in the uploaded documents to answer your question."

/-- `FinancialWorkflow._rag_agent_node`, parameterized by the retrieval
result and the synthesis oracle; the second component counts synthesis
invocations. -/
def rag_agent_node (context_chunks : List RetChunk)
    (llm : PromptKind → Str → Str → Str → Str) (st : FState) : FState × Nat :=
  let query := st.message
  let is_analytics := is_analytics_query query
  if context_chunks.isEmpty then
    ({ st with
        response := no_info_response,
        sources := [],
        metadata := [("context_chunks_found", MVal.natV 0)] }, 0)
  else
    let context_text := context_text_of context_chunks
    let document_types := document_types_of context_chunks
    let kind := if is_analytics && document_types.contains (toL "csv")
      then PromptKind.analytics else PromptKind.standard
    let response := llm kind context_text query (joinSep (toL ", ") document_types)
    let sources := context_chunks.map (fun c =>
      { content := if 200 < c.content.length
          then c.content.take 200 ++ toL "..." else c.content,
        metadata := c.metadata,
        relevance_score := 1 - c.distance,
        document_type := c.metadata.fileType.getD (toL "unknown") })
    ({ st with
        response := pyStrip response,
        sources := sources,
        metadata := [("context_chunks_found", MVal.natV context_chunks.length),
          ("document_id", match st.document_id with
            | some d => MVal.strV d
            | none => MVal.noneV),
          ("agent_type", MVal.strV (toL "rag")),
          ("is_analytics_query", MVal.boolV is_analytics),
          ("document_types", MVal.listV document_types)] }, 1)

/-- Fallback message of the `except` branch of `_rag_agent_node`. -/
def rag_error_message : Str :=
  toL "I encountered an error while processing your financial question. Please try again."

/-- Fallback message of the `except` branch of `_summarization_agent_node`. -/
def summarization_error_message : Str :=
  toL "I encountered an error while generating the summary. Please try again."

/-- Fallback message of the `except` branch of `_mcq_agent_node`. -/
def mcq_error_message : Str :=
  toL "I encountered an error while generating MCQ questions. Please try again."

/-- The user-facing error text `"I encountered an error while processing
your request: {e}. Please try again."`. -/
def request_error_message (e : Str) : Str :=
  toL "I encountered an error while processing your request: " ++ e
    ++ toL ". Please try again."

/-- Default error text of `_error_handler_node`. -/
def unknown_error_message : Str := toL "Unknown error occurred"

/-- The router's `try/except` boundary: on an exception the state records
the message and routes to the error handler. -/
def router_node_wrapped (router_body : FState → Except Str FState)
    (st : FState) : FState :=
  match router_body st with
  | .ok st2 => st2
  | .error e => { st with error := some e, next_agent := some (toL "error") }

/-- The `try/except` boundary of an agent node: on an exception the state
records the message and the node's fixed fallback response. -/
def wrap_agent_node (body : FState → Except Str FState) (fallback : Str)
    (st : FState) : FState :=
  match body st with
  | .ok st2 => st2
  | .error e => { st with error := some e, response := fallback }

/-- `FinancialWorkflow._route_decision`. -/
def route_decision (st : FState) : Str :=
  if st.error.isSome then toL "error" else st.next_agent.getD (toL "rag")

/-- `FinancialWorkflow._error_handler_node`. -/
def error_handler_node (st : FState) : FState :=
  let error_msg := st.error.getD unknown_error_message
  { st with
    response := request_error_message error_msg,
    sources := [],
    metadata := [("error", MVal.strV error_msg),
      ("agent_type", MVal.strV (toL "error"))] }

/-- One run of the compiled graph: router (with its failure boundary), then
conditional dispatch to the selected agent node (each with its failure
boundary).  A decision value outside the conditional-edge map makes the
graph framework itself raise, which is the only way an exception can leave
the graph. -/
def graph_invoke (router_body rag_body summarization_body mcq_body :
    FState → Except Str FState) (st : FState) : Except Str FState :=
  let st1 := router_node_wrapped router_body st
  let d := route_decision st1
  if d = toL "rag" then
    .ok (wrap_agent_node rag_body rag_error_message st1)
  else if d = toL "summarization" then
    .ok (wrap_agent_node summarization_body summarization_error_message st1)
  else if d = toL "mcq" then
    .ok (wrap_agent_node mcq_body mcq_error_message st1)
  else if d = toL "error" then
    .ok (error_handler_node st1)
  else
    .error (toL "Branch condition returned unknown or invalid destination")

/-- `metadata.get(key)` on the association-list model. -/
def lookupMeta (m : List (String × MVal)) (k : String) : Option MVal :=
  (m.find? (fun p => p.1 == k)).map Prod.snd

/-- `FinancialRequest` (src/workflow/state.py). -/
structure FinancialRequest where
  message : Str
  document_id : Option Str
  agent_type : Option Str

/-- `FinancialResponse` (src/workflow/state.py). -/
structure FinancialResponse where
  response : Str
  agent_type : Str
  sources : List SourceEntry
  metadata : List (String × MVal)

/-- The initial state assembled by `FinancialWorkflow.process_request`. -/
def initial_state (req : FinancialRequest) : FState :=
  { message := req.message, document_id := req.document_id,
    agent_type := req.agent_type, context_chunks := [],
    document_content := none, response := [], sources := [], metadata := [],
    next_agent := none, error := none, completed := false }

/-- `FinancialWorkflow.process_request`: run the graph inside the outermost
`try/except`; a failure escaping the graph becomes an apologetic response
with an `error` metadata field. -/
def process_request (router_body rag_body summarization_body mcq_body :
    FState → Except Str FState) (req : FinancialRequest) : FinancialResponse :=
  match graph_invoke router_body rag_body summarization_body mcq_body
      (initial_state req) with
  | .ok fin =>
    { response := fin.response,
      agent_type :=
        (match lookupMeta fin.metadata "agent_type" with
         | some (MVal.strV s) => s
         | _ => toL "rag"),
      sources := fin.sources,
      metadata := fin.metadata }
  | .error e =>
    { response := request_error_message e,
      agent_type := toL "error",
      sources := [],
      metadata := [("error", MVal.strV e)] }

/-- C1: with no usable explicit override, a query matching a summarization
cue (even one also matching a quiz cue) routes to `summarization`; an
explicit non-empty override is used verbatim regardless of keywords; with
no override and no cue match the router defaults to `rag` (answering). -/
theorem router_routing (st : FState) :
    ((st.agent_type = none ∨ st.agent_type = some []) →
      containsAny (lowerStr st.message) summarization_keywords = true →
      containsAny (lowerStr st.message) mcq_keywords = true →
      (router_node st).next_agent = some (toL "summarization")) ∧
    (∀ a, st.agent_type = some a → a ≠ [] →
      (router_node st).next_agent = some a) ∧
    ((st.agent_type = none ∨ st.agent_type = some []) →
      containsAny (lowerStr st.message) summarization_keywords = false →
      containsAny (lowerStr st.message) mcq_keywords = false →
      (router_node st).next_agent = some (toL "rag")) := by
  refine ⟨?_, ?_, ?_⟩
  · intro hov hsum _
    rcases hov with h | h <;> simp [router_node, h, hsum]
  · intro a ha hane
    have hae : a.isEmpty = false := by
      cases a with
      | nil => exact absurd rfl hane
      | cons c t => rfl
    simp [router_node, ha, hae]
  · intro hov hsum hmcq
    rcases hov with h | h <;> simp [router_node, h, hsum, hmcq]

/-- Witness for C1: a query containing both "summary" and "quiz" with no
override routes to summarization. -/
theorem router_routing_witness :
    (router_node (initial_state ⟨toL "give me a summary quiz", none, none⟩)).next_agent
      = some (toL "summarization") :=
  (router_routing (initial_state ⟨toL "give me a summary quiz", none, none⟩)).1
    (Or.inl rfl) (by decide) (by decide)

/-- C5: in the answering state, zero retrieved fragments short-circuit to
the fixed no-relevant-information message with an empty sources list,
metadata `{"context_chunks_found": 0}`, and zero synthesis invocations. -/
theorem rag_agent_zero_fragments (llm : PromptKind → Str → Str → Str → Str)
    (st : FState) :
    (rag_agent_node [] llm st).1.response = no_info_response ∧
    (rag_agent_node [] llm st).1.sources = [] ∧
    (rag_agent_node [] llm st).1.metadata
        = [("context_chunks_found", MVal.natV 0)] ∧
    (rag_agent_node [] llm st).2 = 0 :=
  ⟨rfl, rfl, rfl, rfl⟩

/-- C6 counterexample: an exception inside the rag state behavior is caught
and converted to the fixed apologetic message, but the response carries NO
`error` metadata field — the metadata dict is still the initial empty one. -/
theorem error_metadata_counterexample :
    lookupMeta (process_request (fun st => .ok (router_node st))
        (fun _ => .error (toL "boom")) (fun st => .ok st) (fun st => .ok st)
        ⟨toL "hello", none, none⟩).metadata "error" = none
    ∧ (process_request (fun st => .ok (router_node st))
        (fun _ => .error (toL "boom")) (fun st => .ok st) (fun st => .ok st)
        ⟨toL "hello", none, none⟩).response = rag_error_message :=
  ⟨rfl, rfl⟩

/-- C6 amended: exceptions in the routing step are converted into the
error-handler response carrying the message and an `error` metadata field;
exceptions in an agent state behavior are caught and converted into that
agent's fixed apologetic message with the response metadata left unchanged
(no `error` metadata field is added); the error state assembles its
response deterministically from the recorded error message and never
throws.  In all cases `process_request` returns a plain response — no
exception propagates to the caller. -/
theorem workflow_failure_boundary :
    (∀ (router_body rag_body summarization_body mcq_body :
          FState → Except Str FState) (req : FinancialRequest) (e : Str),
      router_body (initial_state req) = .error e →
      process_request router_body rag_body summarization_body mcq_body req
        = { response := request_error_message e,
            agent_type := toL "error",
            sources := [],
            metadata := [("error", MVal.strV e),
              ("agent_type", MVal.strV (toL "error"))] }) ∧
    (∀ (router_body rag_body summarization_body mcq_body :
          FState → Except Str FState) (req : FinancialRequest)
        (st1 : FState) (e : Str),
      router_body (initial_state req) = .ok st1 →
      st1.error = none →
      ((st1.next_agent = some (toL "rag") →
        rag_body st1 = .error e →
        (process_request router_body rag_body summarization_body mcq_body
            req).response = rag_error_message ∧
        (process_request router_body rag_body summarization_body mcq_body
            req).metadata = st1.metadata) ∧
       (st1.next_agent = some (toL "summarization") →
        summarization_body st1 = .error e →
        (process_request router_body rag_body summarization_body mcq_body
            req).response = summarization_error_message ∧
        (process_request router_body rag_body summarization_body mcq_body
            req).metadata = st1.metadata) ∧
       (st1.next_agent = some (toL "mcq") →
        mcq_body st1 = .error e →
        (process_request router_body rag_body summarization_body mcq_body
            req).response = mcq_error_message ∧
        (process_request router_body rag_body summarization_body mcq_body
            req).metadata = st1.metadata))) ∧
    (∀ st : FState,
      (error_handler_node st).response
          = request_error_message (st.error.getD unknown_error_message) ∧
      (error_handler_node st).sources = []) := by
  refine ⟨?_, ?_, ?_⟩
  · intro router_body rag_body summarization_body mcq_body req e h
    simp only [process_request, graph_invoke, router_node_wrapped, h,
      route_decision]
    rfl
  · intro router_body rag_body summarization_body mcq_body req st1 e hok herr
    refine ⟨?_, ?_, ?_⟩ <;> intro hnext hbody <;>
      simp only [process_request, graph_invoke, router_node_wrapped, hok,
        route_decision, herr, hnext, wrap_agent_node, hbody] <;>
      exact ⟨rfl, rfl⟩
  · intro st
    exact ⟨rfl, rfl⟩

/-- Witness for the amended C6: a concrete router failure produces the
error-handler response. -/
theorem workflow_failure_boundary_witness :
    process_request (fun _ => .error (toL "x")) (fun st => .ok st)
        (fun st => .ok st) (fun st => .ok st) ⟨toL "hi", none, none⟩
      = { response := request_error_message (toL "x"),
          agent_type := toL "error", sources := [],
          metadata := [("error", MVal.strV (toL "x")),
            ("agent_type", MVal.strV (toL "error"))] } :=
  workflow_failure_boundary.1 (fun _ => .error (toL "x")) (fun st => .ok st)
    (fun st => .ok st) (fun st => .ok st) ⟨toL "hi", none, none⟩ (toL "x") rfl

/- `DocumentIngestionPipeline` (src/ingestion/pipeline.py lines 168-226).
`process_document` first calls `save_file` (which writes the upload to
disk), then `get_file_type`, then the per-type processor; any exception is
re-raised.  Side effects are recorded as an event trace; the per-type
processor (PyPDF2 / pandas) is an oracle parameter, as is the generated
document id. -/

/-- `pathlib.Path(name).suffix`: the final extension including the dot,
empty when the dot is absent, leading, or trailing. -/
def pySuffix (name : Str) : Str :=
  let idxs := (List.range name.length).filter (fun i => name.get? i == some '.')
  match idxs.getLast? with
  | some i => if 0 < i ∧ i + 1 < name.length then name.drop i else []
  | none => []

/-- `DocumentIngestionPipeline.get_file_type`. -/
def get_file_type (filename : Str) : Except Str String :=
  let ext := lowerStr (pySuffix filename)
  if ext = toL ".pdf" then .ok "pdf"
  else if ext = toL ".csv" then .ok "csv"
  else .error (toL "Unsupported file type: " ++ ext)

/-- Observable processing steps of `process_document`, in execution order. -/
inductive IngestEvent
  | save
  | classify
  | processFile (file_type : String)
deriving DecidableEq

/-- The metadata dict returned on success (the Document record). -/
structure IngestResult (α : Type) where
  document_id : String
  filename : Str
  file_type : String
  status : String
  payload : α
deriving DecidableEq

/-- `DocumentIngestionPipeline.process_document`: save the upload, classify
it, then run the per-type processor; the trace records the order in which
these steps run. -/
def process_document {α : Type} (proc : String → Except Str α)
    (document_id : String) (file_content : List Nat) (filename : Str) :
    List IngestEvent × Except Str (IngestResult α) :=
  let events := [IngestEvent.save]
  match get_file_type filename with
  | .error e => (events ++ [IngestEvent.classify], .error e)
  | .ok ft =>
    match proc ft with
    | .error e =>
      (events ++ [IngestEvent.classify, IngestEvent.processFile ft], .error e)
    | .ok payload =>
      (events ++ [IngestEvent.classify, IngestEvent.processFile ft],
        .ok { document_id := document_id, filename := filename,
              file_type := ft, status := "processed", payload := payload })

/-- C8 counterexample: classification is NOT the first step — for the
unsupported filename "data.txt" the upload is saved to storage before the
unsupported-file-type failure is raised (the first trace event is the save,
not the classification). -/
theorem ingest_save_before_classify_counterexample :
    (process_document (fun _ => Except.ok ()) "d0" [] (toL "data.txt")).1.head?
        = some IngestEvent.save ∧
    IngestEvent.save ≠ IngestEvent.classify ∧
    (process_document (fun _ => Except.ok ()) "d0" [] (toL "data.txt")).2
        = Except.error (toL "Unsupported file type: .txt") :=
  ⟨rfl, by decide, rfl⟩

/-- C8 amended: on an unsupported extension `process_document` raises the
unsupported-file-type failure after saving the upload bytes but before any
extraction or chunking (no processor step appears in the trace), produces
no Document, and the failure propagates to the caller. -/
theorem ingest_unsupported_extension {α : Type} (proc : String → Except Str α)
    (document_id : String) (file_content : List Nat) (filename : Str)
    (e : Str) (h : get_file_type filename = .error e) :
    process_document proc document_id file_content filename
      = ([IngestEvent.save, IngestEvent.classify], Except.error e) := by
  simp only [process_document, h]
  rfl

/-- Witness for the amended C8 at the concrete filename "data.txt". -/
theorem ingest_unsupported_extension_witness :
    process_document (fun _ => Except.ok ()) "d0" [] (toL "data.txt")
      = ([IngestEvent.save, IngestEvent.classify],
          Except.error (toL "Unsupported file type: .txt")) :=
  ingest_unsupported_extension (fun _ => Except.ok ()) "d0" [] (toL "data.txt")
    (toL "Unsupported file type: .txt") rfl

/- `EnhancedFinancialChatbot._prepare_context_from_search_results`
(src/api/enhanced_chatbot.py lines 71-91). -/

/-- A search result from the hybrid knowledge base; `title` / `filename`
are the metadata keys read by the context assembler. -/
structure SearchResult where
  content : Str
  title : Option Str
  filename : Option Str
deriving DecidableEq

/-- The three context lines emitted for one permanent-knowledge result. -/
def permanent_block (r : SearchResult) : List Str :=
  [toL "Source: " ++ r.title.getD (toL "Unknown"),
   toL "Content: " ++ r.content.take 500 ++ toL "...",
   []]

/-- The three context lines emitted for one session result. -/
def session_block (r : SearchResult) : List Str :=
  [toL "Source: " ++ r.filename.getD (toL "Unknown"),
   toL "Content: " ++ r.content.take 500 ++ toL "...",
   []]

/-- `_prepare_context_from_search_results`: headers plus per-result blocks
for the top 3 permanent and top 2 session results, joined by newlines. -/
def prepare_context_from_search_results
    (permanent_results session_results : List SearchResult) : Str :=
  let context_parts : List Str :=
    (if permanent_results.isEmpty then []
     else toL "=== PERMANENT FINANCIAL KNOWLEDGE ===" ::
       (permanent_results.take 3).flatMap permanent_block)
    ++ (if session_results.isEmpty then []
     else toL "=== USER UPLOADED DOCUMENTS ===" ::
       (session_results.take 2).flatMap session_block)
  joinSep (toL "\n") context_parts

/-- `p` occurs as a contiguous substring of `l`. -/
def occursIn (p l : Str) : Prop := ∃ s t, l = s ++ p ++ t

/-- Any member of the joined parts occurs in the joined string. -/
theorem occursIn_joinSep (sep p : Str) :
    ∀ parts : List Str, p ∈ parts → occursIn p (joinSep sep parts)
  | [], h => absurd h (List.not_mem_nil p)
  | [x], h => by
    have hx : p = x := List.mem_singleton.mp h
    exact ⟨[], [], by simp [joinSep, hx]⟩
  | x :: y :: rest, h => by
    rcases List.mem_cons.mp h with rfl | h2
    · exact ⟨[], sep ++ joinSep sep (y :: rest), by simp [joinSep]⟩
    · obtain ⟨s, t, ht⟩ := occursIn_joinSep sep p (y :: rest) h2
      exact ⟨x ++ sep ++ s, t, by simp [joinSep, ht]⟩

/-- C10: the context assembler (1) yields the empty string when both result
lists are empty, (2) uses only the top 3 permanent and top 2 session
results, and (3)/(4) emits, for every included fragment, the line
`"Content: " ++ first 500 characters ++ "..."` — the `"..."` marker is
appended unconditionally, also when the content is 500 characters or
shorter. -/
theorem prepare_context_props :
    (prepare_context_from_search_results [] [] = []) ∧
    (∀ ps ss : List SearchResult,
      prepare_context_from_search_results ps ss
        = prepare_context_from_search_results (ps.take 3) (ss.take 2)) ∧
    (∀ ps ss r, r ∈ ps.take 3 →
      occursIn (toL "Content: " ++ r.content.take 500 ++ toL "...")
        (prepare_context_from_search_results ps ss)) ∧
    (∀ ps ss r, r ∈ ss.take 2 →
      occursIn (toL "Content: " ++ r.content.take 500 ++ toL "...")
        (prepare_context_from_search_results ps ss)) := by
  have hte : ∀ (l : List SearchResult) (n : Nat),
      (l.take (n + 1)).isEmpty = l.isEmpty := by
    intro l n; cases l <;> rfl
  have htt : ∀ (l : List SearchResult) (n : Nat),
      (l.take n).take n = l.take n := by
    intro l n; simp [List.take_take]
  refine ⟨rfl, ?_, ?_, ?_⟩
  · intro ps ss
    simp only [prepare_context_from_search_results]
    rw [htt ps 3, htt ss 2,
      show ((ps.take 3).isEmpty = ps.isEmpty) from hte ps 2,
      show ((ss.take 2).isEmpty = ss.isEmpty) from hte ss 1]
  · intro ps ss r hr
    have hne : ps.isEmpty = false := by
      cases ps with
      | nil => simp at hr
      | cons a t => rfl
    apply occursIn_joinSep
    simp only [prepare_context_from_search_results, hne, Bool.false_eq_true,
      if_false, List.mem_append, List.mem_cons]
    exact Or.inl (Or.inr (List.mem_flatMap.mpr
      ⟨r, hr, by simp [permanent_block]⟩))
  · intro ps ss r hr
    have hne : ss.isEmpty = false := by
      cases ss with
      | nil => simp at hr
      | cons a t => rfl
    apply occursIn_joinSep
    simp only [prepare_context_from_search_results, hne, Bool.false_eq_true,
      if_false, List.mem_append, List.mem_cons]
    exact Or.inr (Or.inr (List.mem_flatMap.mpr
      ⟨r, hr, by simp [session_block]⟩))

/-- Witness for C10: a 3-character fragment still gets the "..." marker. -/
theorem prepare_context_props_witness :
    occursIn (toL "Content: "
        ++ (SearchResult.mk (toL "abc") (some (toL "T")) none).content.take 500
        ++ toL "...")
      (prepare_context_from_search_results
        [SearchResult.mk (toL "abc") (some (toL "T")) none] []) :=
  prepare_context_props.2.2.1 [SearchResult.mk (toL "abc") (some (toL "T")) none]
    [] (SearchResult.mk (toL "abc") (some (toL "T")) none) (by decide)

end FC
